import Mathlib

/-!
Verification of the noon crate: a compile-time-checked mediator.

Shallow embedding of the six source files:
- hlist.rs: heterogeneous list (Nil/Cons), push, type-level index (Z/Succ),
  the ContainsAt capability with take / take_mut.
- entry.rs: the four entry kinds (RequestResponse, RequestResponseAsync,
  ReceiveNotification, ReceiveNotificationAsync).
- concrete.rs: the sealed Mediator with handle / handle_async / notify /
  notify_async.
- fragment.rs and mediator.rs: the two parallel builders (Fragment and
  MediatorBuilder).

Modelling conventions:
- A side-effecting / suspended computation producing a value of type a is
  embedded as a state transformer with unwinding failure,
  Future s e a = s -> Except e (a x s): the state s stands for the world the
  callbacks act on, an Except.error value stands for a panic unwinding out of
  a callback, and driving a suspended computation to completion is applying
  it to a state.  Box::pin is the identity on this value semantics (boxPin).
- Rust references (&T, &mut T) are embedded by value: take returns the
  element, and take_mut, whose only use in the crate is in-place mutation of
  the located entry, is embedded as takeMut, the update-at-the-witness
  function.
- Clone::clone on the message type is an explicit function argument
  (clone : M -> M) to the async notification calls, mirroring msg.clone().
- The Rust trait dispatch that infers the I index parameter is embedded by
  passing the position witness (a ContainsAt value) explicitly.
-/

set_option autoImplicit false

namespace Noon

/-- Heterogeneous list from hlist.rs (Nil and Cons), indexed by the list of
its element types. -/
inductive HList : List Type → Type 1
  | nil : HList []
  | cons {α : Type} {ts : List Type} : α → HList ts → HList (α :: ts)

/-- HListExt::push from hlist.rs: Cons(t, self), i.e. prepend the new entry
in front of the existing list. -/
def HList.push {ts : List Type} {T : Type} (l : HList ts) (t : T) : HList (T :: ts) :=
  HList.cons t l

/-- Position witness from hlist.rs: the index types Z and Succ fused with the
ContainsAt trait; a value of ContainsAt T ts witnesses that an element of
type T sits at that depth of ts. -/
inductive ContainsAt (T : Type) : List Type → Type 1
  | z {ts : List Type} : ContainsAt T (T :: ts)
  | s {H : Type} {ts : List Type} : ContainsAt T ts → ContainsAt T (H :: ts)

/-- ContainsAt::take from hlist.rs: the Z instance returns the head field,
the Succ instance recurses into the tail. -/
def ContainsAt.take {T : Type} : {ts : List Type} → ContainsAt T ts → HList ts → T
  | _, .z, .cons t _ => t
  | _, .s i, .cons _ rest => i.take rest

/-- ContainsAt::take_mut from hlist.rs, embedded as update-at-the-witness:
the Z instance mutates the head field in place, the Succ instance recurses
into the tail. -/
def ContainsAt.takeMut {T : Type} : {ts : List Type} → ContainsAt T ts → (T → T) → HList ts → HList ts
  | _, .z, f, .cons t rest => .cons (f t) rest
  | _, .s i, f, .cons h rest => .cons h (i.takeMut f rest)

/-- Depth of a position witness: the number of Succ layers. -/
def ContainsAt.depth {T : Type} : {ts : List Type} → ContainsAt T ts → Nat
  | _, .z => 0
  | _, .s i => i.depth + 1

/-- A suspended or side-effecting computation: state transformer over a
world state σ with unwinding failure ε.  Driving it to completion is
applying it to a state. -/
def Future (σ ε α : Type) : Type := σ → Except ε (α × σ)

/-- Sequencing of computations: run the first; a failure unwinds past the
continuation, a success feeds value and state to it. -/
def Future.bind {σ ε α β : Type} (x : Future σ ε α) (f : α → Future σ ε β) : Future σ ε β :=
  fun s => match x s with
    | .error e => .error e
    | .ok (a, s') => f a s'

/-- The trivial computation: no effect, no failure. -/
def Future.pure {σ ε α : Type} (a : α) : Future σ ε α :=
  fun s => .ok (a, s)

/-- Box::pin: a representation-only wrapper, identity on the value
semantics. -/
def boxPin {σ ε α : Type} (x : Future σ ε α) : Future σ ε α := x

/-- entry.rs RequestResponse: a synchronous handler holding one callback. -/
structure RequestResponse (M R : Type) where
  cb : M → R

/-- From impl for RequestResponse: box the callback (from in the source;
Lean reserves that word). -/
def RequestResponse.fromFn {M R : Type} (f : M → R) : RequestResponse M R :=
  { cb := f }

/-- RequestResponse::call: invoke the stored callback directly. -/
def RequestResponse.call {M R : Type} (h : RequestResponse M R) (msg : M) : R :=
  h.cb msg

/-- entry.rs RequestResponseAsync: an asynchronous handler holding one
callback returning a pinned boxed future. -/
structure RequestResponseAsync (σ ε M R : Type) where
  cb : M → Future σ ε R

/-- From impl for RequestResponseAsync: wrap the callback so each call pins
and boxes its future. -/
def RequestResponseAsync.fromFn {σ ε M R : Type} (f : M → Future σ ε R) : RequestResponseAsync σ ε M R :=
  { cb := fun msg => boxPin (f msg) }

/-- RequestResponseAsync::call: invoke the stored callback, returning the
suspended computation. -/
def RequestResponseAsync.call {σ ε M R : Type} (h : RequestResponseAsync σ ε M R) (msg : M) : Future σ ε R :=
  h.cb msg

/-- entry.rs ReceiveNotification: a synchronous notifier set, an ordered
sequence of callbacks taking the message by reference. -/
structure ReceiveNotification (σ ε M : Type) where
  cbs : List (M → Future σ ε Unit)

/-- ReceiveNotification::new: the empty receiver sequence. -/
def ReceiveNotification.new {σ ε M : Type} : ReceiveNotification σ ε M :=
  { cbs := [] }

/-- ReceiveNotification::add: Vec::push, append the callback at the end. -/
def ReceiveNotification.add {σ ε M : Type} (r : ReceiveNotification σ ε M)
    (f : M → Future σ ε Unit) : ReceiveNotification σ ε M :=
  { cbs := r.cbs ++ [f] }

/-- The receiver loop of ReceiveNotification::call: invoke each stored
callback in sequence on the same message; an unwinding failure aborts the
remaining iterations. -/
def callList {σ ε M : Type} (cbs : List (M → Future σ ε Unit)) (msg : M) : Future σ ε Unit :=
  match cbs with
  | [] => Future.pure ()
  | cb :: rest => (cb msg).bind fun _ => callList rest msg

/-- ReceiveNotification::call: for cb in cbs, cb(msg). -/
def ReceiveNotification.call {σ ε M : Type} (r : ReceiveNotification σ ε M) (msg : M) : Future σ ε Unit :=
  callList r.cbs msg

/-- entry.rs ReceiveNotificationAsync: an asynchronous notifier set; the
message type must be clonable. -/
structure ReceiveNotificationAsync (σ ε M : Type) where
  cbs : List (M → Future σ ε Unit)

/-- ReceiveNotificationAsync::new: the empty receiver sequence. -/
def ReceiveNotificationAsync.new {σ ε M : Type} : ReceiveNotificationAsync σ ε M :=
  { cbs := [] }

/-- ReceiveNotificationAsync::add: wrap the callback to pin-box its future,
then Vec::push at the end. -/
def ReceiveNotificationAsync.add {σ ε M : Type} (r : ReceiveNotificationAsync σ ε M)
    (f : M → Future σ ε Unit) : ReceiveNotificationAsync σ ε M :=
  { cbs := r.cbs ++ [fun msg => boxPin (f msg)] }

/-- The receiver loop of ReceiveNotificationAsync::call: each iteration
passes its own clone of the message and awaits the receiver's future to
completion before the next begins; a failure unwinds past the rest. -/
def callListClone {σ ε M : Type} (clone : M → M) (cbs : List (M → Future σ ε Unit))
    (msg : M) : Future σ ε Unit :=
  match cbs with
  | [] => Future.pure ()
  | cb :: rest => (cb (clone msg)).bind fun _ => callListClone clone rest msg

/-- ReceiveNotificationAsync::call: for cb in cbs, cb(msg.clone()).await. -/
def ReceiveNotificationAsync.call {σ ε M : Type} (r : ReceiveNotificationAsync σ ε M)
    (clone : M → M) (msg : M) : Future σ ε Unit :=
  callListClone clone r.cbs msg

/-- concrete.rs Mediator: the sealed dispatcher holding the handler list and
the notification-receiver list. -/
structure Mediator (hs ns : List Type) where
  contents : HList hs
  receivers : HList ns

/-- Mediator::new. -/
def Mediator.new {hs ns : List Type} (contents : HList hs) (receivers : HList ns) : Mediator hs ns :=
  { contents := contents, receivers := receivers }

/-- Mediate::handle on the concrete Mediator: locate the synchronous handler
entry via ContainsAt and invoke it. -/
def Mediator.handle {hs ns : List Type} {M R : Type} (med : Mediator hs ns)
    (i : ContainsAt (RequestResponse M R) hs) (msg : M) : R :=
  (i.take med.contents).call msg

/-- Mediate::handle_async on the concrete Mediator: locate the asynchronous
handler entry, invoke it and pin-box the resulting future. -/
def Mediator.handle_async {hs ns : List Type} {σ ε M R : Type} (med : Mediator hs ns)
    (i : ContainsAt (RequestResponseAsync σ ε M R) hs) (msg : M) : Future σ ε R :=
  boxPin ((i.take med.contents).call msg)

/-- Mediate::notify on the concrete Mediator: locate the synchronous
notifier-set entry and invoke all its receivers. -/
def Mediator.notify {hs ns : List Type} {σ ε M : Type} (med : Mediator hs ns)
    (i : ContainsAt (ReceiveNotification σ ε M) ns) (msg : M) : Future σ ε Unit :=
  (i.take med.receivers).call msg

/-- Mediate::notify_async on the concrete Mediator: locate the asynchronous
notifier-set entry and pin-box its suspended fan-out. -/
def Mediator.notify_async {hs ns : List Type} {σ ε M : Type} (med : Mediator hs ns)
    (i : ContainsAt (ReceiveNotificationAsync σ ε M) ns) (clone : M → M) (msg : M) : Future σ ε Unit :=
  boxPin ((i.take med.receivers).call clone msg)

/-- fragment.rs Fragment: the type-evolving builder holding the two lists. -/
structure Fragment (hs ns : List Type) where
  contents : HList hs
  receivers : HList ns

/-- Fragment::empty. -/
def Fragment.empty : Fragment [] [] :=
  { contents := .nil, receivers := .nil }

/-- Fragment::add_handler: push a RequestResponse entry built from the
callback onto the handler list. -/
def Fragment.add_handler {hs ns : List Type} {M R : Type} (fr : Fragment hs ns)
    (handler : M → R) : Fragment (RequestResponse M R :: hs) ns :=
  { contents := fr.contents.push (RequestResponse.fromFn handler), receivers := fr.receivers }

/-- Fragment::add_async_handler: push a RequestResponseAsync entry built
from the callback onto the handler list. -/
def Fragment.add_async_handler {hs ns : List Type} {σ ε M R : Type} (fr : Fragment hs ns)
    (handler : M → Future σ ε R) : Fragment (RequestResponseAsync σ ε M R :: hs) ns :=
  { contents := fr.contents.push (RequestResponseAsync.fromFn handler), receivers := fr.receivers }

/-- Fragment::listen_for: push a fresh empty ReceiveNotification entry onto
the receiver list. -/
def Fragment.listen_for {hs ns : List Type} (σ ε M : Type) (fr : Fragment hs ns) :
    Fragment hs (ReceiveNotification σ ε M :: ns) :=
  { contents := fr.contents, receivers := fr.receivers.push ReceiveNotification.new }

/-- Fragment::listen_for_async: push a fresh empty ReceiveNotificationAsync
entry onto the receiver list. -/
def Fragment.listen_for_async {hs ns : List Type} (σ ε M : Type) (fr : Fragment hs ns) :
    Fragment hs (ReceiveNotificationAsync σ ε M :: ns) :=
  { contents := fr.contents, receivers := fr.receivers.push ReceiveNotificationAsync.new }

/-- Fragment::add_notification_receiver: take_mut the located notifier-set
entry and add the receiver to it in place; the builder type is unchanged. -/
def Fragment.add_notification_receiver {hs ns : List Type} {σ ε M : Type} (fr : Fragment hs ns)
    (i : ContainsAt (ReceiveNotification σ ε M) ns) (receiver : M → Future σ ε Unit) :
    Fragment hs ns :=
  { contents := fr.contents,
    receivers := i.takeMut (fun set => set.add receiver) fr.receivers }

/-- Fragment::add_async_notification_receiver: take_mut the located async
notifier-set entry and add the receiver to it in place. -/
def Fragment.add_async_notification_receiver {hs ns : List Type} {σ ε M : Type} (fr : Fragment hs ns)
    (i : ContainsAt (ReceiveNotificationAsync σ ε M) ns) (receiver : M → Future σ ε Unit) :
    Fragment hs ns :=
  { contents := fr.contents,
    receivers := i.takeMut (fun set => set.add receiver) fr.receivers }

/-- Fragment::build: seal into a Mediator over the same two lists. -/
def Fragment.build {hs ns : List Type} (fr : Fragment hs ns) : Mediator hs ns :=
  Mediator.new fr.contents fr.receivers

/-- mediator.rs MediatorBuilder: the second, parallel builder. -/
structure MediatorBuilder (hs ns : List Type) where
  contents : HList hs
  receivers : HList ns

/-- MediatorBuilder::new. -/
def MediatorBuilder.new : MediatorBuilder [] [] :=
  { contents := .nil, receivers := .nil }

/-- MediatorBuilder::add_handler. -/
def MediatorBuilder.add_handler {hs ns : List Type} {M R : Type} (b : MediatorBuilder hs ns)
    (handler : M → R) : MediatorBuilder (RequestResponse M R :: hs) ns :=
  { contents := b.contents.push (RequestResponse.fromFn handler), receivers := b.receivers }

/-- MediatorBuilder::add_async_handler. -/
def MediatorBuilder.add_async_handler {hs ns : List Type} {σ ε M R : Type} (b : MediatorBuilder hs ns)
    (handler : M → Future σ ε R) : MediatorBuilder (RequestResponseAsync σ ε M R :: hs) ns :=
  { contents := b.contents.push (RequestResponseAsync.fromFn handler), receivers := b.receivers }

/-- MediatorBuilder::listen_for. -/
def MediatorBuilder.listen_for {hs ns : List Type} (σ ε M : Type) (b : MediatorBuilder hs ns) :
    MediatorBuilder hs (ReceiveNotification σ ε M :: ns) :=
  { contents := b.contents, receivers := b.receivers.push ReceiveNotification.new }

/-- MediatorBuilder::listen_for_async. -/
def MediatorBuilder.listen_for_async {hs ns : List Type} (σ ε M : Type) (b : MediatorBuilder hs ns) :
    MediatorBuilder hs (ReceiveNotificationAsync σ ε M :: ns) :=
  { contents := b.contents, receivers := b.receivers.push ReceiveNotificationAsync.new }

/-- MediatorBuilder::add_notification_receiver. -/
def MediatorBuilder.add_notification_receiver {hs ns : List Type} {σ ε M : Type}
    (b : MediatorBuilder hs ns) (i : ContainsAt (ReceiveNotification σ ε M) ns)
    (receiver : M → Future σ ε Unit) : MediatorBuilder hs ns :=
  { contents := b.contents,
    receivers := i.takeMut (fun set => set.add receiver) b.receivers }

/-- MediatorBuilder::add_async_notification_receiver. -/
def MediatorBuilder.add_async_notification_receiver {hs ns : List Type} {σ ε M : Type}
    (b : MediatorBuilder hs ns) (i : ContainsAt (ReceiveNotificationAsync σ ε M) ns)
    (receiver : M → Future σ ε Unit) : MediatorBuilder hs ns :=
  { contents := b.contents,
    receivers := i.takeMut (fun set => set.add receiver) b.receivers }

/-- MediatorBuilder::build. -/
def MediatorBuilder.build {hs ns : List Type} (b : MediatorBuilder hs ns) : Mediator hs ns :=
  Mediator.new b.contents b.receivers

/-- Translation between the two parallel builders: they carry the same two
lists. -/
def Fragment.toBuilder {hs ns : List Type} (fr : Fragment hs ns) : MediatorBuilder hs ns :=
  { contents := fr.contents, receivers := fr.receivers }

/-- A notifier-set entry built by adding the given receivers, in order, to a
fresh entry: the sequence of registration calls the spec quantifies over. -/
def ReceiveNotification.ofAdds {σ ε M : Type} (rs : List (M → Future σ ε Unit)) :
    ReceiveNotification σ ε M :=
  rs.foldl (fun set r => set.add r) ReceiveNotification.new

/-- Async counterpart of ofAdds. -/
def ReceiveNotificationAsync.ofAdds {σ ε M : Type} (rs : List (M → Future σ ε Unit)) :
    ReceiveNotificationAsync σ ε M :=
  rs.foldl (fun set r => set.add r) ReceiveNotificationAsync.new

/-- A receiver that performs the pure state update g and never fails; used
to observe which receivers a fan-out runs, and in which order. -/
def pureRecv {σ ε M : Type} (g : σ → σ) : M → Future σ ε Unit :=
  fun _ s => .ok ((), g s)

/-- A receiver tagged k that appends (k, its argument) to a trace state;
used to observe both invocation order and the message each receiver was
passed. -/
def recordRecv {ε M : Type} (k : Nat) : M → Future (List (Nat × M)) ε Unit :=
  fun x s => .ok ((), s ++ [(k, x)])

/-- Sample data for concrete witnesses: two sync notifier-set entries, for
Bool and for Nat messages. -/
def sampleReceivers : HList [ReceiveNotification Unit Unit Bool, ReceiveNotification Unit Unit Nat] :=
  HList.cons ReceiveNotification.new (HList.cons ReceiveNotification.new HList.nil)

/-- Sample fragment holding the two sync notifier-set entries. -/
def sampleFragment : Fragment [] [ReceiveNotification Unit Unit Bool, ReceiveNotification Unit Unit Nat] :=
  { contents := HList.nil, receivers := sampleReceivers }

/-- Sample MediatorBuilder holding the two sync notifier-set entries. -/
def sampleBuilder : MediatorBuilder [] [ReceiveNotification Unit Unit Bool, ReceiveNotification Unit Unit Nat] :=
  { contents := HList.nil, receivers := sampleReceivers }

/-- A trivial receiver, for concrete witnesses. -/
def unitRecv : Bool → Future Unit Unit Unit :=
  fun _ => Future.pure ()

/-- Witness locating the Bool sync notifier set at depth 0. -/
def sampleWitI : ContainsAt (ReceiveNotification Unit Unit Bool)
    [ReceiveNotification Unit Unit Bool, ReceiveNotification Unit Unit Nat] :=
  ContainsAt.z

/-- Witness locating the Nat sync notifier set at depth 1. -/
def sampleWitJ : ContainsAt (ReceiveNotification Unit Unit Nat)
    [ReceiveNotification Unit Unit Bool, ReceiveNotification Unit Unit Nat] :=
  ContainsAt.s ContainsAt.z

/-- Sample data: two async notifier-set entries. -/
def sampleReceiversAsync : HList [ReceiveNotificationAsync Unit Unit Bool, ReceiveNotificationAsync Unit Unit Nat] :=
  HList.cons ReceiveNotificationAsync.new (HList.cons ReceiveNotificationAsync.new HList.nil)

/-- Sample fragment holding the two async notifier-set entries. -/
def sampleFragmentAsync : Fragment [] [ReceiveNotificationAsync Unit Unit Bool, ReceiveNotificationAsync Unit Unit Nat] :=
  { contents := HList.nil, receivers := sampleReceiversAsync }

/-- Sample MediatorBuilder holding the two async notifier-set entries. -/
def sampleBuilderAsync : MediatorBuilder [] [ReceiveNotificationAsync Unit Unit Bool, ReceiveNotificationAsync Unit Unit Nat] :=
  { contents := HList.nil, receivers := sampleReceiversAsync }

/-- Witness locating the Bool async notifier set at depth 0. -/
def sampleWitIA : ContainsAt (ReceiveNotificationAsync Unit Unit Bool)
    [ReceiveNotificationAsync Unit Unit Bool, ReceiveNotificationAsync Unit Unit Nat] :=
  ContainsAt.z

/-- Witness locating the Nat async notifier set at depth 1. -/
def sampleWitJA : ContainsAt (ReceiveNotificationAsync Unit Unit Nat)
    [ReceiveNotificationAsync Unit Unit Bool, ReceiveNotificationAsync Unit Unit Nat] :=
  ContainsAt.s ContainsAt.z

/-- A receiver incrementing a Nat counter state by 1. -/
def incRecv : Bool → Future Nat Nat Unit :=
  pureRecv (fun s => s + 1)

/-- A receiver that always fails with error code 7. -/
def boomRecv : Bool → Future Nat Nat Unit :=
  fun _ _ => Except.error 7

/-- A receiver incrementing the counter state by 100. -/
def bigRecv : Bool → Future Nat Nat Unit :=
  pureRecv (fun s => s + 100)

/-- A sync notifier set whose middle receiver fails. -/
def failRecvSet : ReceiveNotification Nat Nat Bool :=
  { cbs := [incRecv, boomRecv, bigRecv] }

/-- Receiver list holding the failing sync notifier set. -/
def failReceivers : HList [ReceiveNotification Nat Nat Bool] :=
  HList.cons failRecvSet HList.nil

/-- An async notifier set whose middle receiver fails. -/
def failRecvSetAsync : ReceiveNotificationAsync Nat Nat Bool :=
  { cbs := [incRecv, boomRecv, bigRecv] }

/-- Receiver list holding the failing async notifier set. -/
def failReceiversAsync : HList [ReceiveNotificationAsync Nat Nat Bool] :=
  HList.cons failRecvSetAsync HList.nil

/-- Left unit law for the computation monad. -/
theorem Future.pure_bind {σ ε α β : Type} (a : α) (f : α → Future σ ε β) :
    (Future.pure (σ := σ) (ε := ε) a).bind f = f a := by
  funext s
  rfl

/-- Associativity for the computation monad. -/
theorem Future.bind_assoc {σ ε α β γ : Type} (x : Future σ ε α)
    (f : α → Future σ ε β) (g : β → Future σ ε γ) :
    (x.bind f).bind g = x.bind (fun a => (f a).bind g) := by
  funext s
  simp only [Future.bind]
  cases x s with
  | error e => rfl
  | ok p => rfl

/-- Reading through an update at the same witness applies the update to the
located entry. -/
theorem take_takeMut_same {T : Type} : ∀ {ts : List Type} (i : ContainsAt T ts)
    (f : T → T) (l : HList ts), i.take (i.takeMut f l) = f (i.take l)
  | _, .z, _, .cons _ _ => rfl
  | _, .s i, f, .cons _ rest => take_takeMut_same i f rest

/-- Reading at a witness of a different depth is unaffected by an update:
takeMut only touches the entry its own witness reaches. -/
theorem take_takeMut_ne : ∀ {T T' : Type} {ts : List Type} (i : ContainsAt T ts)
    (j : ContainsAt T' ts) (f : T → T) (l : HList ts), i.depth ≠ j.depth →
    j.take (i.takeMut f l) = j.take l
  | _, _, _, .z, .z, _, _, h => absurd rfl h
  | _, _, _, .z, .s _, _, .cons _ _, _ => rfl
  | _, _, _, .s _, .z, _, .cons _ _, _ => rfl
  | _, _, _, .s i, .s j, f, .cons _ rest, h =>
    take_takeMut_ne i j f rest (fun hd => h (by simp [ContainsAt.depth, hd]))

/-- The fan-out loop over a concatenation runs the first block to completion
and then the second. -/
theorem callList_append {σ ε M : Type} : ∀ (l₁ l₂ : List (M → Future σ ε Unit)) (m : M),
    callList (l₁ ++ l₂) m = (callList l₁ m).bind fun _ => callList l₂ m
  | [], l₂, m => (Future.pure_bind () fun _ => callList l₂ m).symm
  | cb :: rest, l₂, m => by
    show (cb m).bind (fun _ => callList (rest ++ l₂) m) =
      ((cb m).bind fun _ => callList rest m).bind fun _ => callList l₂ m
    rw [Future.bind_assoc]
    exact congrArg ((cb m).bind) (funext fun _ => callList_append rest l₂ m)

/-- Async analogue of callList_append. -/
theorem callListClone_append {σ ε M : Type} (clone : M → M) :
    ∀ (l₁ l₂ : List (M → Future σ ε Unit)) (m : M),
    callListClone clone (l₁ ++ l₂) m =
      (callListClone clone l₁ m).bind fun _ => callListClone clone l₂ m
  | [], l₂, m => (Future.pure_bind () fun _ => callListClone clone l₂ m).symm
  | cb :: rest, l₂, m => by
    show (cb (clone m)).bind (fun _ => callListClone clone (rest ++ l₂) m) =
      ((cb (clone m)).bind fun _ => callListClone clone rest m).bind fun _ =>
        callListClone clone l₂ m
    rw [Future.bind_assoc]
    exact congrArg ((cb (clone m)).bind) (funext fun _ => callListClone_append clone rest l₂ m)

/-- Building an entry by successive adds stores exactly the given receivers
in the given order. -/
theorem ofAdds_cbs {σ ε M : Type} (rs : List (M → Future σ ε Unit)) :
    (ReceiveNotification.ofAdds rs).cbs = rs := by
  suffices h : ∀ (set : ReceiveNotification σ ε M),
      (rs.foldl (fun set r => set.add r) set).cbs = set.cbs ++ rs by
    simpa [ReceiveNotification.ofAdds, ReceiveNotification.new] using h ReceiveNotification.new
  induction rs with
  | nil => intro set; simp
  | cons r rest ih =>
    intro set
    rw [List.foldl_cons, ih (set.add r)]
    simp [ReceiveNotification.add]

/-- Async analogue of ofAdds_cbs; the pin-boxing wrapper added by add is the
identity on the value semantics. -/
theorem ofAddsAsync_cbs {σ ε M : Type} (rs : List (M → Future σ ε Unit)) :
    (ReceiveNotificationAsync.ofAdds rs).cbs = rs := by
  suffices h : ∀ (set : ReceiveNotificationAsync σ ε M),
      (rs.foldl (fun set r => set.add r) set).cbs = set.cbs ++ rs by
    simpa [ReceiveNotificationAsync.ofAdds, ReceiveNotificationAsync.new]
      using h ReceiveNotificationAsync.new
  induction rs with
  | nil => intro set; simp
  | cons r rest ih =>
    intro set
    rw [List.foldl_cons, ih (set.add r)]
    simp [ReceiveNotificationAsync.add, boxPin]

/-- Fan-out over pure state-updating receivers folds their updates over the
state in list order: each update is applied exactly once, in order. -/
theorem callList_pureRecv {σ ε M : Type} (gs : List (σ → σ)) (m : M) (s : σ) :
    callList (ε := ε) (gs.map pureRecv) m s = .ok ((), gs.foldl (fun st g => g st) s) := by
  induction gs generalizing s with
  | nil => rfl
  | cons g rest ih =>
    simp only [List.map_cons, callList, List.foldl_cons, Future.bind, pureRecv]
    exact ih (g s)

/-- Async fan-out over trace-recording receivers appends one record per
receiver, in list order, each holding the clone of the message. -/
theorem callListClone_recordRecv {ε M : Type} (clone : M → M) (ks : List Nat)
    (m : M) (s : List (Nat × M)) :
    callListClone (ε := ε) clone (ks.map recordRecv) m s =
      .ok ((), s ++ ks.map (fun k => (k, clone m))) := by
  induction ks generalizing s with
  | nil => simp [callListClone, Future.pure]
  | cons k rest ih =>
    simp only [List.map_cons, callListClone, Future.bind, recordRecv]
    rw [ih (s ++ [(k, clone m)])]
    simp

/-- Claim C1: for every synchronous handler registered as a callback f and
every message m, handle m on the sealed dispatcher returns exactly f m; the
result of f is returned untouched, so the handler's own failure (second
conjunct, with the response type instantiated to a failing computation)
propagates unmodified to the caller. -/
theorem handle_returns_registered_callback :
    (∀ (hs ns : List Type) (M R : Type) (h : HList hs) (n : HList ns)
      (i : ContainsAt (RequestResponse M R) hs) (f : M → R) (m : M),
      i.take h = RequestResponse.fromFn f → (Mediator.new h n).handle i m = f m)
    ∧ (∀ (hs ns : List Type) (σ ε M R : Type) (h : HList hs) (n : HList ns)
      (i : ContainsAt (RequestResponse M (Future σ ε R)) hs) (f : M → Future σ ε R)
      (m : M) (s : σ) (e : ε), i.take h = RequestResponse.fromFn f →
      f m s = .error e → (Mediator.new h n).handle i m s = .error e) := by
  constructor
  · intro hs ns M R h n i f m hreg
    show (i.take h).call m = f m
    rw [hreg]
    rfl
  · intro hs ns σ ε M R h n i f m s e hreg herr
    show (i.take h).call m s = Except.error e
    rw [hreg]
    exact herr

/-- Witness for C1 at a concrete dispatcher: one registered handler, the
successor function, called at 5; and a failing handler whose error value 3
comes back untouched. -/
theorem handle_returns_registered_callback_witness :
    (ContainsAt.z.take (HList.push HList.nil (RequestResponse.fromFn (fun x : Nat => x + 1)))
      = RequestResponse.fromFn (fun x : Nat => x + 1))
    ∧ ((Mediator.new (HList.push HList.nil (RequestResponse.fromFn (fun x : Nat => x + 1)))
        HList.nil).handle ContainsAt.z 5 = 6)
    ∧ (ContainsAt.z.take (HList.push HList.nil
        (RequestResponse.fromFn (fun _ : Nat => (fun _ : Nat => Except.error 3 : Future Nat Nat Unit))))
      = RequestResponse.fromFn (fun _ : Nat => (fun _ : Nat => Except.error 3 : Future Nat Nat Unit)))
    ∧ ((fun _ : Nat => (Except.error 3 : Except Nat (Unit × Nat))) 0 = Except.error 3)
    ∧ ((Mediator.new (HList.push HList.nil
        (RequestResponse.fromFn (fun _ : Nat => (fun _ : Nat => Except.error 3 : Future Nat Nat Unit))))
        HList.nil).handle ContainsAt.z 7 0 = Except.error 3) :=
  ⟨rfl,
   handle_returns_registered_callback.1 _ _ _ _
     (HList.push HList.nil (RequestResponse.fromFn (fun x : Nat => x + 1))) HList.nil
     ContainsAt.z (fun x => x + 1) 5 rfl,
   rfl, rfl,
   handle_returns_registered_callback.2 _ _ _ _ _ _
     (HList.push HList.nil
       (RequestResponse.fromFn (fun _ : Nat => (fun _ : Nat => Except.error 3 : Future Nat Nat Unit))))
     HList.nil ContainsAt.z
     (fun _ => fun _ => Except.error 3) 7 0 3 rfl rfl⟩

/-- Claim C2: a notifier-set entry built by adding receivers r1 .. rn in
that order stores exactly that sequence; notify runs the located entry's
stored sequence head-first (r1 first, then the rest), applies each stored
pure effect exactly once in list order, and depends only on the entry the
witness locates, not on how the entries are nested in the Typed List. -/
theorem notify_invokes_receivers_in_append_order :
    (∀ (σ ε M : Type) (rs : List (M → Future σ ε Unit)),
      (ReceiveNotification.ofAdds rs).cbs = rs)
    ∧ (∀ (σ ε M : Type) (r : M → Future σ ε Unit) (rs : List (M → Future σ ε Unit)) (m : M),
      callList (r :: rs) m = (r m).bind fun _ => callList rs m)
    ∧ (∀ (σ ε M : Type) (gs : List (σ → σ)) (m : M) (s : σ),
      callList (ε := ε) (gs.map pureRecv) m s = .ok ((), gs.foldl (fun st g => g st) s))
    ∧ (∀ (hs ns : List Type) (σ ε M : Type) (h : HList hs) (n : HList ns)
      (i : ContainsAt (ReceiveNotification σ ε M) ns) (m : M),
      (Mediator.new h n).notify i m = callList (i.take n).cbs m) :=
  ⟨fun _ _ _ rs => ofAdds_cbs rs,
   fun _ _ _ _ _ _ => rfl,
   fun _ _ _ gs m s => callList_pureRecv gs m s,
   fun _ _ _ _ _ _ _ _ _ => rfl⟩

/-- Claim C3: an async notifier-set entry built by adds stores the given
receivers in order; driving notify_async runs them strictly sequentially
(the rest of the fan-out starts from the state in which the previous
receiver's computation fully completed), each receiver is passed its own
clone of the message, and recording receivers observe exactly one
invocation per receiver, in order, each with the cloned message. -/
theorem notify_async_sequential_with_clones :
    (∀ (σ ε M : Type) (rs : List (M → Future σ ε Unit)),
      (ReceiveNotificationAsync.ofAdds rs).cbs = rs)
    ∧ (∀ (σ ε M : Type) (clone : M → M) (r : M → Future σ ε Unit)
      (rs : List (M → Future σ ε Unit)) (m : M),
      callListClone clone (r :: rs) m = (r (clone m)).bind fun _ => callListClone clone rs m)
    ∧ (∀ (σ ε M : Type) (clone : M → M) (l₁ l₂ : List (M → Future σ ε Unit)) (m : M),
      callListClone clone (l₁ ++ l₂) m
        = (callListClone clone l₁ m).bind fun _ => callListClone clone l₂ m)
    ∧ (∀ (ε M : Type) (clone : M → M) (ks : List Nat) (m : M) (s : List (Nat × M)),
      callListClone (ε := ε) clone (ks.map recordRecv) m s
        = .ok ((), s ++ ks.map (fun k => (k, clone m))))
    ∧ (∀ (hs ns : List Type) (σ ε M : Type) (h : HList hs) (n : HList ns)
      (i : ContainsAt (ReceiveNotificationAsync σ ε M) ns) (clone : M → M) (m : M),
      (Mediator.new h n).notify_async i clone m = callListClone clone (i.take n).cbs m) :=
  ⟨fun _ _ _ rs => ofAddsAsync_cbs rs,
   fun _ _ _ _ _ _ _ => rfl,
   fun _ _ _ clone l₁ l₂ m => callListClone_append clone l₁ l₂ m,
   fun _ _ clone ks m s => callListClone_recordRecv clone ks m s,
   fun _ _ _ _ _ _ _ _ _ _ => rfl⟩

/-- Claim C4: for every asynchronous handler registered as f, driving the
computation returned by handle_async m (applying it to any state) produces
exactly what driving f m directly produces. -/
theorem handle_async_drives_registered_callback :
    ∀ (hs ns : List Type) (σ ε M R : Type) (h : HList hs) (n : HList ns)
      (i : ContainsAt (RequestResponseAsync σ ε M R) hs) (f : M → Future σ ε R)
      (m : M) (s : σ), i.take h = RequestResponseAsync.fromFn f →
      (Mediator.new h n).handle_async i m s = f m s := by
  intro hs ns σ ε M R h n i f m s hreg
  show boxPin ((i.take h).call m) s = f m s
  rw [hreg]
  rfl

/-- Witness for C4: the doubling handler driven through handle_async at
message 5 from state 0 produces the same result as driving it directly. -/
theorem handle_async_drives_registered_callback_witness :
    (ContainsAt.z.take (HList.push HList.nil
        (RequestResponseAsync.fromFn (fun x : Nat => Future.pure (σ := Nat) (ε := Unit) (x * 2))))
      = RequestResponseAsync.fromFn (fun x : Nat => Future.pure (σ := Nat) (ε := Unit) (x * 2)))
    ∧ ((Mediator.new (HList.push HList.nil
        (RequestResponseAsync.fromFn (fun x : Nat => Future.pure (σ := Nat) (ε := Unit) (x * 2))))
        HList.nil).handle_async ContainsAt.z 5 0 = Except.ok (10, 0)) :=
  ⟨rfl,
   handle_async_drives_registered_callback _ _ _ _ _ _
     (HList.push HList.nil
       (RequestResponseAsync.fromFn (fun x : Nat => Future.pure (σ := Nat) (ε := Unit) (x * 2))))
     HList.nil ContainsAt.z
     (fun x => Future.pure (x * 2)) 5 0 rfl⟩

/-- Claim C5: ContainsAt resolution is structural recursion on the witness,
for take and for take_mut alike: a zero witness acts on the head entry of
the current list level, and a successor witness returns exactly what the
rest of the list returns for the decremented witness. -/
theorem containsAt_take_structural :
    (∀ (T : Type) (ts : List Type) (t : T) (l : HList ts),
      ContainsAt.z.take (HList.cons t l) = t)
    ∧ (∀ (T H : Type) (ts : List Type) (i : ContainsAt T ts) (x : H) (l : HList ts),
      (ContainsAt.s i).take (HList.cons x l) = i.take l)
    ∧ (∀ (T : Type) (ts : List Type) (f : T → T) (t : T) (l : HList ts),
      ContainsAt.z.takeMut f (HList.cons t l) = HList.cons (f t) l)
    ∧ (∀ (T H : Type) (ts : List Type) (i : ContainsAt T ts) (f : T → T) (x : H) (l : HList ts),
      (ContainsAt.s i).takeMut f (HList.cons x l) = HList.cons x (i.takeMut f l)) :=
  ⟨fun _ _ _ _ => rfl, fun _ _ _ _ _ _ => rfl,
   fun _ _ _ _ _ => rfl, fun _ _ _ _ _ _ _ => rfl⟩

/-- Claim C6: push nests the new entry in front of the existing list
(newest-inserted-first), so the zero witness resolves to the entry pushed
last, and a successor witness on the pushed list resolves exactly as the
original list did - older entries keep their positions shifted by one. -/
theorem push_prepends_zero_selects_newest :
    (∀ (T : Type) (ts : List Type) (l : HList ts) (e : T), l.push e = HList.cons e l)
    ∧ (∀ (T : Type) (ts : List Type) (l : HList ts) (e : T),
      ContainsAt.z.take (l.push e) = e)
    ∧ (∀ (T T' : Type) (ts : List Type) (l : HList ts) (e : T) (j : ContainsAt T' ts),
      (ContainsAt.s j).take (l.push e) = j.take l) :=
  ⟨fun _ _ _ _ => rfl, fun _ _ _ _ => rfl, fun _ _ _ _ _ _ => rfl⟩

/-- Claim C7: on both builders, adding a notification receiver (sync or
async) leaves the handler list untouched, appends the receiver at the end
of the one located notifier-set entry, and leaves every entry at any other
depth of the receiver list unchanged. -/
theorem add_receiver_appends_and_frames :
    (∀ (hs ns : List Type) (σ ε M : Type) (fr : Fragment hs ns)
      (i : ContainsAt (ReceiveNotification σ ε M) ns) (r : M → Future σ ε Unit),
      (fr.add_notification_receiver i r).contents = fr.contents)
    ∧ (∀ (hs ns : List Type) (σ ε M : Type) (fr : Fragment hs ns)
      (i : ContainsAt (ReceiveNotification σ ε M) ns) (r : M → Future σ ε Unit),
      (i.take (fr.add_notification_receiver i r).receivers).cbs
        = (i.take fr.receivers).cbs ++ [r])
    ∧ (∀ (hs ns : List Type) (σ ε M T' : Type) (fr : Fragment hs ns)
      (i : ContainsAt (ReceiveNotification σ ε M) ns) (r : M → Future σ ε Unit)
      (j : ContainsAt T' ns), i.depth ≠ j.depth →
      j.take (fr.add_notification_receiver i r).receivers = j.take fr.receivers)
    ∧ (∀ (hs ns : List Type) (σ ε M : Type) (fr : Fragment hs ns)
      (i : ContainsAt (ReceiveNotificationAsync σ ε M) ns) (r : M → Future σ ε Unit),
      (fr.add_async_notification_receiver i r).contents = fr.contents)
    ∧ (∀ (hs ns : List Type) (σ ε M : Type) (fr : Fragment hs ns)
      (i : ContainsAt (ReceiveNotificationAsync σ ε M) ns) (r : M → Future σ ε Unit),
      (i.take (fr.add_async_notification_receiver i r).receivers).cbs
        = (i.take fr.receivers).cbs ++ [r])
    ∧ (∀ (hs ns : List Type) (σ ε M T' : Type) (fr : Fragment hs ns)
      (i : ContainsAt (ReceiveNotificationAsync σ ε M) ns) (r : M → Future σ ε Unit)
      (j : ContainsAt T' ns), i.depth ≠ j.depth →
      j.take (fr.add_async_notification_receiver i r).receivers = j.take fr.receivers)
    ∧ (∀ (hs ns : List Type) (σ ε M : Type) (b : MediatorBuilder hs ns)
      (i : ContainsAt (ReceiveNotification σ ε M) ns) (r : M → Future σ ε Unit),
      (b.add_notification_receiver i r).contents = b.contents)
    ∧ (∀ (hs ns : List Type) (σ ε M : Type) (b : MediatorBuilder hs ns)
      (i : ContainsAt (ReceiveNotification σ ε M) ns) (r : M → Future σ ε Unit),
      (i.take (b.add_notification_receiver i r).receivers).cbs
        = (i.take b.receivers).cbs ++ [r])
    ∧ (∀ (hs ns : List Type) (σ ε M T' : Type) (b : MediatorBuilder hs ns)
      (i : ContainsAt (ReceiveNotification σ ε M) ns) (r : M → Future σ ε Unit)
      (j : ContainsAt T' ns), i.depth ≠ j.depth →
      j.take (b.add_notification_receiver i r).receivers = j.take b.receivers)
    ∧ (∀ (hs ns : List Type) (σ ε M : Type) (b : MediatorBuilder hs ns)
      (i : ContainsAt (ReceiveNotificationAsync σ ε M) ns) (r : M → Future σ ε Unit),
      (b.add_async_notification_receiver i r).contents = b.contents)
    ∧ (∀ (hs ns : List Type) (σ ε M : Type) (b : MediatorBuilder hs ns)
      (i : ContainsAt (ReceiveNotificationAsync σ ε M) ns) (r : M → Future σ ε Unit),
      (i.take (b.add_async_notification_receiver i r).receivers).cbs
        = (i.take b.receivers).cbs ++ [r])
    ∧ (∀ (hs ns : List Type) (σ ε M T' : Type) (b : MediatorBuilder hs ns)
      (i : ContainsAt (ReceiveNotificationAsync σ ε M) ns) (r : M → Future σ ε Unit)
      (j : ContainsAt T' ns), i.depth ≠ j.depth →
      j.take (b.add_async_notification_receiver i r).receivers = j.take b.receivers) := by
  refine ⟨?_, ?_, ?_, ?_, ?_, ?_, ?_, ?_, ?_, ?_, ?_, ?_⟩
  · intro hs ns σ ε M fr i r; rfl
  · intro hs ns σ ε M fr i r
    show (i.take (i.takeMut (fun set => set.add r) fr.receivers)).cbs = _
    rw [take_takeMut_same]
    rfl
  · intro hs ns σ ε M T' fr i r j hne
    exact take_takeMut_ne i j (fun set => set.add r) fr.receivers hne
  · intro hs ns σ ε M fr i r; rfl
  · intro hs ns σ ε M fr i r
    show (i.take (i.takeMut (fun set => set.add r) fr.receivers)).cbs = _
    rw [take_takeMut_same]
    rfl
  · intro hs ns σ ε M T' fr i r j hne
    exact take_takeMut_ne i j (fun set => set.add r) fr.receivers hne
  · intro hs ns σ ε M b i r; rfl
  · intro hs ns σ ε M b i r
    show (i.take (i.takeMut (fun set => set.add r) b.receivers)).cbs = _
    rw [take_takeMut_same]
    rfl
  · intro hs ns σ ε M T' b i r j hne
    exact take_takeMut_ne i j (fun set => set.add r) b.receivers hne
  · intro hs ns σ ε M b i r; rfl
  · intro hs ns σ ε M b i r
    show (i.take (i.takeMut (fun set => set.add r) b.receivers)).cbs = _
    rw [take_takeMut_same]
    rfl
  · intro hs ns σ ε M T' b i r j hne
    exact take_takeMut_ne i j (fun set => set.add r) b.receivers hne

/-- Witness for C7 at a concrete builder: adding a receiver to the Bool
entry at depth 0 leaves the Nat entry at depth 1 unchanged, on both
builders and for both entry kinds. -/
theorem add_receiver_appends_and_frames_witness :
    (sampleWitI.depth ≠ sampleWitJ.depth)
    ∧ (sampleWitJ.take (sampleFragment.add_notification_receiver sampleWitI unitRecv).receivers
        = sampleWitJ.take sampleFragment.receivers)
    ∧ (sampleWitJA.take (sampleFragmentAsync.add_async_notification_receiver sampleWitIA unitRecv).receivers
        = sampleWitJA.take sampleFragmentAsync.receivers)
    ∧ (sampleWitJ.take (sampleBuilder.add_notification_receiver sampleWitI unitRecv).receivers
        = sampleWitJ.take sampleBuilder.receivers)
    ∧ (sampleWitJA.take (sampleBuilderAsync.add_async_notification_receiver sampleWitIA unitRecv).receivers
        = sampleWitJA.take sampleBuilderAsync.receivers) :=
  ⟨by decide,
   add_receiver_appends_and_frames.2.2.1 _ _ _ _ _ _ sampleFragment sampleWitI unitRecv
     sampleWitJ (by decide),
   add_receiver_appends_and_frames.2.2.2.2.2.1 _ _ _ _ _ _ sampleFragmentAsync sampleWitIA
     unitRecv sampleWitJA (by decide),
   add_receiver_appends_and_frames.2.2.2.2.2.2.2.2.1 _ _ _ _ _ _ sampleBuilder sampleWitI
     unitRecv sampleWitJ (by decide),
   add_receiver_appends_and_frames.2.2.2.2.2.2.2.2.2.2.2 _ _ _ _ _ _ sampleBuilderAsync
     sampleWitIA unitRecv sampleWitJA (by decide)⟩

/-- Claim C8: when a receiver in the fan-out fails, the failure value comes
back to the notify / notify_async caller exactly as raised, and the
receivers after the failing one never run: the conclusion does not depend
on the receivers listed after the failing one. -/
theorem callback_failure_aborts_fanout :
    (∀ (hs ns : List Type) (σ ε M : Type) (h : HList hs) (n : HList ns)
      (i : ContainsAt (ReceiveNotification σ ε M) ns)
      (l₁ l₂ : List (M → Future σ ε Unit)) (r : M → Future σ ε Unit)
      (m : M) (s s' : σ) (e : ε),
      (i.take n).cbs = l₁ ++ r :: l₂ →
      callList l₁ m s = Except.ok ((), s') →
      r m s' = Except.error e →
      (Mediator.new h n).notify i m s = Except.error e)
    ∧ (∀ (hs ns : List Type) (σ ε M : Type) (h : HList hs) (n : HList ns)
      (i : ContainsAt (ReceiveNotificationAsync σ ε M) ns) (clone : M → M)
      (l₁ l₂ : List (M → Future σ ε Unit)) (r : M → Future σ ε Unit)
      (m : M) (s s' : σ) (e : ε),
      (i.take n).cbs = l₁ ++ r :: l₂ →
      callListClone clone l₁ m s = Except.ok ((), s') →
      r (clone m) s' = Except.error e →
      (Mediator.new h n).notify_async i clone m s = Except.error e) := by
  constructor
  · intro hs ns σ ε M h n i l₁ l₂ r m s s' e hcbs hok herr
    show callList (i.take n).cbs m s = Except.error e
    rw [hcbs, callList_append]
    simp only [Future.bind, callList, hok, herr]
  · intro hs ns σ ε M h n i clone l₁ l₂ r m s s' e hcbs hok herr
    show callListClone clone (i.take n).cbs m s = Except.error e
    rw [hcbs, callListClone_append]
    simp only [Future.bind, callListClone, hok, herr]

/-- Witness for C8: the middle receiver of a three-receiver fan-out fails
with code 7 after the first incremented the counter; notify and
notify_async return error 7 and the receiver adding 100 never runs. -/
theorem callback_failure_aborts_fanout_witness :
    ((ContainsAt.z.take failReceivers).cbs = [incRecv] ++ boomRecv :: [bigRecv])
    ∧ (callList [incRecv] true 0 = Except.ok ((), 1))
    ∧ (boomRecv true 1 = Except.error 7)
    ∧ ((Mediator.new HList.nil failReceivers).notify ContainsAt.z true 0 = Except.error 7)
    ∧ ((ContainsAt.z.take failReceiversAsync).cbs = [incRecv] ++ boomRecv :: [bigRecv])
    ∧ (callListClone (fun b => b) [incRecv] true 0 = Except.ok ((), 1))
    ∧ (boomRecv ((fun b => b) true) 1 = Except.error 7)
    ∧ ((Mediator.new HList.nil failReceiversAsync).notify_async ContainsAt.z (fun b => b) true 0
        = Except.error 7) :=
  ⟨rfl, rfl, rfl,
   callback_failure_aborts_fanout.1 _ _ _ _ _ HList.nil failReceivers ContainsAt.z
     [incRecv] [bigRecv] boomRecv true 0 1 7 rfl rfl rfl,
   rfl, rfl, rfl,
   callback_failure_aborts_fanout.2 _ _ _ _ _ HList.nil failReceiversAsync ContainsAt.z
     (fun b => b) [incRecv] [bigRecv] boomRecv true 0 1 7 rfl rfl rfl⟩

/-- Claim C9: two handlers for the same message type with different
response types, registered one after the other, are both reachable on the
sealed dispatcher: the call whose witness names the R2 entry returns g m
and the call whose witness names the R1 entry returns f m; selection is by
the response type appearing in the witness type at the call site. -/
theorem same_message_distinct_response_handlers :
    ∀ (M R1 R2 : Type) (f : M → R1) (g : M → R2) (m : M),
      (((MediatorBuilder.new.add_handler f).add_handler g).build).handle ContainsAt.z m = g m
      ∧ (((MediatorBuilder.new.add_handler f).add_handler g).build).handle
          (ContainsAt.s ContainsAt.z) m = f m :=
  fun _ _ _ _ _ _ => ⟨rfl, rfl⟩

/-- Claim C10: the two parallel builders are behaviourally equivalent: the
field-preserving translation toBuilder maps Fragment.empty to
MediatorBuilder.new, commutes with all six registration operations, and
build yields the very same sealed Mediator, so every registration sequence
applied to both builders produces dispatchers with identical handle,
handle_async, notify and notify_async behaviour. -/
theorem fragment_equivalent_to_mediator_builder :
    (Fragment.empty.toBuilder = MediatorBuilder.new)
    ∧ (∀ (hs ns : List Type) (M R : Type) (fr : Fragment hs ns) (f : M → R),
      (fr.add_handler f).toBuilder = fr.toBuilder.add_handler f)
    ∧ (∀ (hs ns : List Type) (σ ε M R : Type) (fr : Fragment hs ns) (f : M → Future σ ε R),
      (fr.add_async_handler f).toBuilder = fr.toBuilder.add_async_handler f)
    ∧ (∀ (hs ns : List Type) (σ ε M : Type) (fr : Fragment hs ns),
      (fr.listen_for σ ε M).toBuilder = fr.toBuilder.listen_for σ ε M)
    ∧ (∀ (hs ns : List Type) (σ ε M : Type) (fr : Fragment hs ns),
      (fr.listen_for_async σ ε M).toBuilder = fr.toBuilder.listen_for_async σ ε M)
    ∧ (∀ (hs ns : List Type) (σ ε M : Type) (fr : Fragment hs ns)
      (i : ContainsAt (ReceiveNotification σ ε M) ns) (r : M → Future σ ε Unit),
      (fr.add_notification_receiver i r).toBuilder = fr.toBuilder.add_notification_receiver i r)
    ∧ (∀ (hs ns : List Type) (σ ε M : Type) (fr : Fragment hs ns)
      (i : ContainsAt (ReceiveNotificationAsync σ ε M) ns) (r : M → Future σ ε Unit),
      (fr.add_async_notification_receiver i r).toBuilder
        = fr.toBuilder.add_async_notification_receiver i r)
    ∧ (∀ (hs ns : List Type) (fr : Fragment hs ns), fr.build = fr.toBuilder.build) :=
  ⟨rfl,
   fun _ _ _ _ _ _ => rfl,
   fun _ _ _ _ _ _ _ _ => rfl,
   fun _ _ _ _ _ _ => rfl,
   fun _ _ _ _ _ _ => rfl,
   fun _ _ _ _ _ _ _ _ => rfl,
   fun _ _ _ _ _ _ _ _ => rfl,
   fun _ _ _ => rfl⟩

end Noon
